import Mathlib

/-!
Shallow embedding of the DS1390 SPI real-time-clock driver
(src/DS1390_SPI.cpp, v1.4) and verification of its specification.

Machine integers are modelled as `Nat` (resp. `Int` for the signed
`Timezone` argument) with explicit `% 256` / `% 2 ^ 32` wrap-around at the
points where the C code can overflow an `unsigned char` / `uint32_t`.
The SPI transport is abstracted into a register file `Regs`; every
`writeByte` call of the driver is counted, so that write-economy claims
can be stated.  All definitions are executable.
-/

/-! ## Constants from DS1390_SPI.h -/

def DS1390_TCH_DISABLE : Nat := 0x00
def DS1390_TCH_250_NO_D : Nat := 0xA5
def DS1390_TCH_250_D : Nat := 0x29
def DS1390_TCH_2K_NO_D : Nat := 0xA6
def DS1390_TCH_2K_D : Nat := 0xAA
def DS1390_TCH_4K_NO_D : Nat := 0xA7
def DS1390_TCH_4K_D : Nat := 0xAB

def DS1390_FORMAT_24H : Nat := 0
def DS1390_FORMAT_12H : Nat := 1
def DS1390_AM : Nat := 0
def DS1390_PM : Nat := 1

def DS1390_MASK_AMPM : Nat := 0x20
def DS1390_MASK_FORMAT : Nat := 0x40
def DS1390_MASK_CENTURY : Nat := 0x80

/-- Modelled from the spec: the mask `DS1390_MASK_OSF` used by the v1.4
source file is not defined in the (older, v1.2) header shipped in the
repository.  Per the spec the validity flag is "persisted in either a
status register's top bit or the month register's top bit"; the source
shifts the masked status byte right by 7, so the mask selects bit 7. -/
def DS1390_MASK_OSF : Nat := 0x80

/-- Arduino's `constrain` macro on unsigned values:
`(amt < low ? low : (amt > high ? high : amt))`. -/
def constrain (amt low high : Nat) : Nat :=
  if amt < low then low else if amt > high then high else amt

/-- Arduino's `constrain` macro on signed values (used for `Timezone`). -/
def constrainInt (amt low high : Int) : Int :=
  if amt < low then low else if amt > high then high else amt

/-- `DS1390::dec2bcd`: `((DecValue / 10) << 4) | (DecValue % 10)`,
truncated to a byte (the C function returns `uint8_t`). -/
def dec2bcd (DecValue : Nat) : Nat :=
  (((DecValue / 10) <<< 4) ||| (DecValue % 10)) % 256

/-- `DS1390::bcd2dec`: `(((BCDValue >> 4) & 0x0F) * 10) + (BCDValue & 0x0F)`. -/
def bcd2dec (BCDValue : Nat) : Nat :=
  ((BCDValue >>> 4) &&& 0x0F) * 10 + (BCDValue &&& 0x0F)

/-- The `LEAP_YEAR(Y)` macro of DS1390_SPI.h:
`((1970+Y) > 0) && !((1970+Y)%4) && (((1970+Y)%100) || !((1970+Y)%400))`.
The first conjunct is always true for `Y : Nat`. -/
def LEAP_YEAR (Y : Nat) : Bool :=
  (1970 + Y) % 4 == 0 && ((1970 + Y) % 100 != 0 || (1970 + Y) % 400 == 0)

/-- The private `_MonthDuration` table of the driver. -/
def MonthDuration : List Nat := [31, 28, 31, 30, 31, 30, 31, 31, 30, 31, 30, 31]

/-! ## The DS1390DateTime structure

The v1.4 source reads and writes a `Century` field of the structure, so the
structure is modelled with the ten fields the source uses.  All fields are
`unsigned char` in C; field assignments that can exceed 255 are wrapped. -/

structure DS1390DateTime where
  Hsecond : Nat
  Second : Nat
  Minute : Nat
  Hour : Nat
  Wday : Nat
  Day : Nat
  Month : Nat
  Year : Nat
  AmPm : Nat
  Century : Nat
deriving DecidableEq, Repr

/-! ## Epoch converter (`dateTimeToEpoch` / `epochToDateTime`)

The two converters call `getTimeFormat()` on the device; here the format
bit they would read is passed explicitly as `fmt` (0 = 24h, 1 = 12h). -/

/-- The loop `for (Counter = 0; Counter < Year; Counter++) if (LEAP_YEAR(Counter))
Epoch += 86400;` of `dateTimeToEpoch`, as the sum it accumulates. -/
def leapSecs : Nat → Nat
  | 0 => 0
  | y + 1 => leapSecs y + (if LEAP_YEAR y then 86400 else 0)

/-- The loop `for (Counter = 1; Counter < Month; Counter++)` of
`dateTimeToEpoch`: seconds of the whole months that precede `Month`,
with February taken as 29 days in a leap year. -/
def monthSecs (leap : Bool) : Nat → Nat
  | 0 => 0
  | m + 1 =>
    if m = 0 then 0
    else monthSecs leap m +
      (if m = 2 ∧ leap then 86400 * 29 else 86400 * MonthDuration.getD (m - 1) 0)

/-- `DS1390::dateTimeToEpoch`.  The C function mutates its by-reference
`DateTime` argument (`Year += 30`, and `Hour += 12` when the device is in
12h format with `AmPm == DS1390_PM`); the mutated structure is returned as
the second component.  The accumulator is a `uint32_t`; the timezone
correction enters it as a (possibly negative) wrapped 32-bit value, and
`DateTime.Day - 1` is computed in `int`, so the whole sum is taken in `Int`
and reduced modulo `2 ^ 32` exactly as the 32-bit hardware does. -/
def dateTimeToEpoch (fmt : Nat) (DateTime : DS1390DateTime) (Timezone : Int) :
    Nat × DS1390DateTime :=
  let dt1 : DS1390DateTime := { DateTime with Year := (DateTime.Year + 30) % 256 }
  let dt2 : DS1390DateTime :=
    if fmt = DS1390_FORMAT_12H ∧ dt1.AmPm = DS1390_PM then
      { dt1 with Hour := (dt1.Hour + 12) % 256 }
    else dt1
  let e0 : Int :=
    if Timezone ≠ 0 then constrainInt Timezone (-12) 12 * (-3600) else 0
  let e1 : Int := e0 + (dt2.Year : Int) * (86400 * 365)
  let e2 : Int := e1 + (leapSecs dt2.Year : Int)
  let e3 : Int := e2 + (monthSecs (LEAP_YEAR dt2.Year) dt2.Month : Int)
  let e4 : Int := e3 + ((dt2.Day : Int) - 1) * 86400
  let e5 : Int := e4 + (dt2.Hour : Int) * 3600 + (dt2.Minute : Int) * 60 + (dt2.Second : Int)
  ((e5 % (2 ^ 32 : Int)).toNat, dt2)

/-- The year-finding loop of `epochToDateTime`:
`while ((unsigned)(Days += (LEAP_YEAR(Year) ? 366 : 365)) <= EpochTime) Year++;`.
`fuel` bounds the iteration count; 200 iterations cover every 32-bit epoch
(whose day count is at most 49710, i.e. at most 137 year blocks). -/
def yearLoop : Nat → Nat → Nat → Nat → Nat × Nat
  | 0, _, Year, Days => (Year, Days)
  | fuel + 1, EpochDays, Year, Days =>
    let acc := Days + (if LEAP_YEAR Year then 366 else 365)
    if acc ≤ EpochDays then yearLoop fuel EpochDays (Year + 1) acc
    else (Year, acc)

/-- Month length as computed inside the month loop of `epochToDateTime`
(`Month` is the 0-based loop counter; February is index 1). -/
def monthLen (leap : Bool) (Month : Nat) : Nat :=
  if Month = 1 then (if leap then 29 else 28) else MonthDuration.getD Month 0

/-- The month loop of `epochToDateTime`: `for (Month = 0; Month < 12; Month++)`
subtracting month lengths while they fit; returns the final `Month` counter
and the remaining day count.  Called with 12 iterations remaining. -/
def monthLoop (leap : Bool) : Nat → Nat → Nat → Nat × Nat
  | 0, Month, t => (Month, t)
  | k + 1, Month, t =>
    let MonthLength := monthLen leap Month
    if MonthLength ≤ t then monthLoop leap k (Month + 1) (t - MonthLength)
    else (Month, t)

/-- Body of `DS1390::epochToDateTime` after the timezone correction:
successive division extracting second/minute/hour/day, the 12h remap, the
weekday formula, the year loop and the month loop.  Fields the C function
does not assign keep the caller's values.  `DateTime.Year = Year - 30` is
an `unsigned char` subtraction, modelled as `(Year + 226) % 256`. -/
def epochToDateTimeCore (fmt : Nat) (e : Nat) (DateTime : DS1390DateTime) :
    DS1390DateTime :=
  let dtS := { DateTime with Second := e % 60 }
  let e1 := e / 60
  let dtM := { dtS with Minute := e1 % 60 }
  let e2 := e1 / 60
  let dtH0 := { dtM with Hour := e2 % 24 }
  let dtH :=
    if fmt = DS1390_FORMAT_12H then
      if dtH0.Hour = 0 then { dtH0 with Hour := 12, AmPm := DS1390_AM }
      else if dtH0.Hour = 12 then { dtH0 with Hour := 12, AmPm := DS1390_PM }
      else if dtH0.Hour < 12 then { dtH0 with AmPm := DS1390_AM }
      else { dtH0 with Hour := dtH0.Hour - 12, AmPm := DS1390_PM }
    else dtH0
  let e3 := e2 / 24
  let dtW := { dtH with Wday := (e3 + 4) % 7 + 1 }
  let yd := yearLoop 200 e3 0 0
  let Year := yd.1
  let dtY := { dtW with Year := (Year + 226) % 256 }
  let Days := yd.2 - (if LEAP_YEAR Year then 366 else 365)
  let t := e3 - Days
  let md := monthLoop (LEAP_YEAR Year) 12 0 t
  { dtY with Month := md.1 + 1, Day := md.2 + 1 }

/-- `DS1390::epochToDateTime`: the `uint32_t` timezone correction
(`EpochTime += Timezone * 3600`, wrapped to 32 bits, performed only when
`Timezone != 0`) followed by the decode body. -/
def epochToDateTime (fmt : Nat) (Epoch : Nat) (DateTime : DS1390DateTime)
    (Timezone : Int) : DS1390DateTime :=
  epochToDateTimeCore fmt
    (if Timezone ≠ 0 then (((Epoch : Int) + Timezone * 3600) % (2 ^ 32 : Int)).toNat
     else Epoch)
    DateTime

/-! ## Register file and the field accessors

`Regs` holds the DS1390 registers the driver touches.  Each operation
returns its C result together with the new register file and the number of
`writeByte` transfers it performed (the 8-byte burst of `setDateTimeAll`
counts as 8). -/

structure Regs where
  rHsec : Nat
  rSec : Nat
  rMin : Nat
  rHrs : Nat
  rWday : Nat
  rDay : Nat
  rMon : Nat
  rYrs : Nat
  rSts : Nat
  rTch : Nat
deriving DecidableEq, Repr

/-- Result of a `bool`-returning setter: the returned flag, the register
file after the call, and the number of register writes performed. -/
structure SetResult where
  changed : Bool
  regs : Regs
  writes : Nat
deriving DecidableEq, Repr

/-- `DS1390::getTimeFormat`: format bit (bit 6) of the Hours register. -/
def getTimeFormat (s : Regs) : Nat := (s.rHrs &&& DS1390_MASK_FORMAT) >>> 6

/-- `DS1390::getValidation`: false iff the OSF bit of the status register
reads 1. -/
def getValidation (s : Regs) : Bool :=
  if (s.rSts &&& DS1390_MASK_OSF) >>> 7 = 1 then false else true

/-- `DS1390::setValidation`: read-modify-write clearing the OSF bit
(`readByte(STS) & ~DS1390_MASK_OSF`; `~` on a byte is `255 ^^^ ·`).
Performs one register write. -/
def setValidation (s : Regs) : Regs :=
  { s with rSts := s.rSts &&& (255 ^^^ DS1390_MASK_OSF) }

/-- `DS1390::setTimeFormat`. -/
def setTimeFormat (Format : Nat) (s : Regs) : SetResult :=
  let HrsReg := s.rHrs
  if Format = (HrsReg &&& DS1390_MASK_FORMAT) >>> 6 then ⟨false, s, 0⟩
  else if Format ≠ DS1390_FORMAT_24H ∧ Format ≠ DS1390_FORMAT_12H then ⟨false, s, 0⟩
  else
    let HrsReg2 := if Format = DS1390_FORMAT_24H then HrsReg &&& (255 ^^^ DS1390_MASK_FORMAT)
                   else HrsReg ||| DS1390_MASK_FORMAT
    ⟨true, setValidation { s with rHrs := HrsReg2 }, 2⟩

/-- `DS1390::getDateTimeAll`: burst-read of the 8-byte frame, decoded.
Every field of the output structure is assigned. -/
def getDateTimeAll (s : Regs) : DS1390DateTime :=
  let hourAmPm : Nat × Nat :=
    if (s.rHrs &&& DS1390_MASK_FORMAT) >>> 5 = DS1390_FORMAT_24H then
      (bcd2dec (s.rHrs &&& 0x3F), 0)
    else
      (bcd2dec (s.rHrs &&& 0x1F), (s.rHrs &&& DS1390_MASK_AMPM) >>> 5)
  { Hsecond := bcd2dec s.rHsec
    Second := bcd2dec s.rSec
    Minute := bcd2dec s.rMin
    Hour := hourAmPm.1
    Wday := bcd2dec s.rWday
    Day := bcd2dec s.rDay
    Month := bcd2dec (s.rMon &&& 0x1F)
    Year := bcd2dec s.rYrs
    AmPm := hourAmPm.2
    Century := (s.rMon &&& DS1390_MASK_CENTURY) >>> 7 }

/-- `DS1390::setDateTimeAll`: burst-write of the encoded 8-byte frame
(8 transfers) followed by `setValidation` (1 more write). -/
def setDateTimeAll (DateTime : DS1390DateTime) (s : Regs) : Regs × Nat :=
  let hourData : Nat :=
    if getTimeFormat s = DS1390_FORMAT_24H then dec2bcd (constrain DateTime.Hour 0 23)
    else dec2bcd (constrain DateTime.Hour 1 12) ||| (DateTime.AmPm <<< 5) ||| DS1390_MASK_FORMAT
  let s1 : Regs :=
    { s with rHsec := dec2bcd (constrain DateTime.Hsecond 0 99)
             rSec := dec2bcd (constrain DateTime.Second 0 59)
             rMin := dec2bcd (constrain DateTime.Minute 0 59)
             rHrs := hourData
             rWday := dec2bcd (constrain DateTime.Wday 1 7)
             rDay := dec2bcd (constrain DateTime.Day 1 31)
             rMon := dec2bcd (constrain DateTime.Month 1 12) ||| (DateTime.Century <<< 7)
             rYrs := dec2bcd (constrain DateTime.Year 0 99) }
  (setValidation s1, 9)

/-- `DS1390::getDateTimeHSeconds`. -/
def getDateTimeHSeconds (s : Regs) : Nat := bcd2dec s.rHsec

/-- `DS1390::setDateTimeHSeconds`: `void`, no current-value check; writes
the constrained value and then `setValidation` (2 writes total). -/
def setDateTimeHSeconds (Value : Nat) (s : Regs) : Regs × Nat :=
  (setValidation { s with rHsec := dec2bcd (constrain Value 0 99) }, 2)

/-- `DS1390::getDateTimeSeconds`. -/
def getDateTimeSeconds (s : Regs) : Nat := bcd2dec s.rSec

/-- `DS1390::setDateTimeSeconds`. -/
def setDateTimeSeconds (Value : Nat) (s : Regs) : SetResult :=
  if Value = getDateTimeSeconds s then ⟨false, s, 0⟩
  else ⟨true, setValidation { s with rSec := dec2bcd (constrain Value 0 59) }, 2⟩

/-- `DS1390::getDateTimeMinutes`. -/
def getDateTimeMinutes (s : Regs) : Nat := bcd2dec s.rMin

/-- `DS1390::setDateTimeMinutes`. -/
def setDateTimeMinutes (Value : Nat) (s : Regs) : SetResult :=
  if Value = getDateTimeMinutes s then ⟨false, s, 0⟩
  else ⟨true, setValidation { s with rMin := dec2bcd (constrain Value 0 59) }, 2⟩

/-- `DS1390::getDateTimeHours` (the source compares
`(Buffer & DS1390_MASK_FORMAT) >> 5` with `DS1390_FORMAT_24H`). -/
def getDateTimeHours (s : Regs) : Nat :=
  if (s.rHrs &&& DS1390_MASK_FORMAT) >>> 5 = DS1390_FORMAT_24H then
    bcd2dec (s.rHrs &&& 0x3F)
  else bcd2dec (s.rHrs &&& 0x1F)

/-- `DS1390::setDateTimeHours`. -/
def setDateTimeHours (Value : Nat) (s : Regs) : SetResult :=
  if Value = getDateTimeHours s then ⟨false, s, 0⟩
  else
    let data :=
      if getTimeFormat s = DS1390_FORMAT_24H then dec2bcd (constrain Value 0 23)
      else
        let AmPm := (s.rHrs &&& DS1390_MASK_AMPM) >>> 5
        dec2bcd (constrain Value 1 12) ||| (AmPm <<< 5) ||| DS1390_MASK_FORMAT
    ⟨true, setValidation { s with rHrs := data }, 2⟩

/-- `DS1390::getDateTimeWday`. -/
def getDateTimeWday (s : Regs) : Nat := bcd2dec s.rWday

/-- `DS1390::setDateTimeWday` (note: the source constrains to [0,7]). -/
def setDateTimeWday (Value : Nat) (s : Regs) : SetResult :=
  if Value = getDateTimeWday s then ⟨false, s, 0⟩
  else ⟨true, setValidation { s with rWday := dec2bcd (constrain Value 0 7) }, 2⟩

/-- `DS1390::getDateTimeDay`. -/
def getDateTimeDay (s : Regs) : Nat := bcd2dec s.rDay

/-- `DS1390::setDateTimeDay` (note: the source constrains to [0,31]). -/
def setDateTimeDay (Value : Nat) (s : Regs) : SetResult :=
  if Value = getDateTimeDay s then ⟨false, s, 0⟩
  else ⟨true, setValidation { s with rDay := dec2bcd (constrain Value 0 31) }, 2⟩

/-- `DS1390::getDateTimeMonth`. -/
def getDateTimeMonth (s : Regs) : Nat := bcd2dec (s.rMon &&& 0x1F)

/-- `DS1390::setDateTimeMonth`: read-modify-write preserving the Century
bit of the Month register. -/
def setDateTimeMonth (Value : Nat) (s : Regs) : SetResult :=
  if Value = getDateTimeMonth s then ⟨false, s, 0⟩
  else
    let Century := (s.rMon &&& DS1390_MASK_CENTURY) >>> 7
    ⟨true, setValidation { s with rMon := dec2bcd (constrain Value 1 12) ||| (Century <<< 7) }, 2⟩

/-- `DS1390::getDateTimeYear`. -/
def getDateTimeYear (s : Regs) : Nat := bcd2dec s.rYrs

/-- `DS1390::setDateTimeYear`. -/
def setDateTimeYear (Value : Nat) (s : Regs) : SetResult :=
  if Value = getDateTimeYear s then ⟨false, s, 0⟩
  else ⟨true, setValidation { s with rYrs := dec2bcd (constrain Value 0 99) }, 2⟩

/-- `DS1390::getDateTimeAmPm`: 0 in 24h mode, else bit 5 of Hours. -/
def getDateTimeAmPm (s : Regs) : Nat :=
  if getTimeFormat s = DS1390_FORMAT_24H then 0
  else (s.rHrs &&& DS1390_MASK_AMPM) >>> 5

/-- `DS1390::setDateTimeAmPm`. -/
def setDateTimeAmPm (Value : Nat) (s : Regs) : SetResult :=
  if getTimeFormat s = DS1390_FORMAT_24H then ⟨false, s, 0⟩
  else if Value = getDateTimeAmPm s then ⟨false, s, 0⟩
  else if Value ≠ DS1390_AM ∧ Value ≠ DS1390_PM then ⟨false, s, 0⟩
  else
    let BufferHrs := dec2bcd (getDateTimeHours s) ||| (Value <<< 5) ||| DS1390_MASK_FORMAT
    ⟨true, setValidation { s with rHrs := BufferHrs }, 2⟩

/-- `DS1390::getDateTimeCentury`. -/
def getDateTimeCentury (s : Regs) : Nat := (s.rMon &&& DS1390_MASK_CENTURY) >>> 7

/-- `DS1390::setDateTimeCentury`. -/
def setDateTimeCentury (Value : Nat) (s : Regs) : SetResult :=
  if Value = getDateTimeCentury s then ⟨false, s, 0⟩
  else
    ⟨true,
     setValidation { s with rMon := dec2bcd (getDateTimeMonth s) ||| (constrain Value 0 1 <<< 7) },
     2⟩

/-- `DS1390::getTrickleChargerMode`. -/
def getTrickleChargerMode (s : Regs) : Nat := s.rTch

/-- `DS1390::setTrickleChargerMode`: current-value check first, then
membership in the closed mode set; writes only when both checks pass. -/
def setTrickleChargerMode (Mode : Nat) (s : Regs) : SetResult :=
  if Mode = getTrickleChargerMode s then ⟨false, s, 0⟩
  else if Mode ≠ DS1390_TCH_DISABLE ∧ Mode ≠ DS1390_TCH_250_NO_D ∧ Mode ≠ DS1390_TCH_250_D ∧
          Mode ≠ DS1390_TCH_2K_NO_D ∧ Mode ≠ DS1390_TCH_2K_D ∧ Mode ≠ DS1390_TCH_4K_NO_D ∧
          Mode ≠ DS1390_TCH_4K_D then ⟨false, s, 0⟩
  else ⟨true, setValidation { s with rTch := Mode }, 2⟩

/-! ## Whole-device state and the epoch convenience accessors

`getDateTimeEpoch` / `setDateTimeEpoch` go through the private
`_DateTimeBuffer`, so the device state carries that buffer too. -/

structure DevState where
  regs : Regs
  buf : DS1390DateTime
deriving DecidableEq, Repr

/-- `DS1390::getDateTimeEpoch`: fills `_DateTimeBuffer` from the device,
then converts it (which mutates the buffer again). -/
def getDateTimeEpoch (Timezone : Int) (d : DevState) : Nat × DevState :=
  let b1 := getDateTimeAll d.regs
  let p := dateTimeToEpoch (getTimeFormat d.regs) b1 Timezone
  (p.1, ⟨d.regs, p.2⟩)

/-- `DS1390::setDateTimeEpoch`: converts into `_DateTimeBuffer`, then
writes the frame. -/
def setDateTimeEpoch (Epoch : Nat) (Timezone : Int) (d : DevState) : DevState × Nat :=
  let b1 := epochToDateTime (getTimeFormat d.regs) Epoch d.buf Timezone
  let p := setDateTimeAll b1 d.regs
  (⟨p.1, b1⟩, p.2)

/-- One public driver operation (getters are pure and omitted except the
two that mutate `_DateTimeBuffer`). -/
inductive DriverOp where
  | opSetTimeFormat (Format : Nat)
  | opSetValidation
  | opSetDateTimeAll (DateTime : DS1390DateTime)
  | opSetDateTimeHSeconds (Value : Nat)
  | opSetDateTimeSeconds (Value : Nat)
  | opSetDateTimeMinutes (Value : Nat)
  | opSetDateTimeHours (Value : Nat)
  | opSetDateTimeWday (Value : Nat)
  | opSetDateTimeDay (Value : Nat)
  | opSetDateTimeMonth (Value : Nat)
  | opSetDateTimeYear (Value : Nat)
  | opSetDateTimeAmPm (Value : Nat)
  | opSetDateTimeCentury (Value : Nat)
  | opSetTrickleChargerMode (Mode : Nat)
  | opGetDateTimeEpoch (Timezone : Int)
  | opSetDateTimeEpoch (Epoch : Nat) (Timezone : Int)
  | opGetDateTimeAll

/-- Effect of one driver operation on the device state. -/
def stepOp (op : DriverOp) (d : DevState) : DevState :=
  match op with
  | .opSetTimeFormat f => ⟨(setTimeFormat f d.regs).regs, d.buf⟩
  | .opSetValidation => ⟨setValidation d.regs, d.buf⟩
  | .opSetDateTimeAll dt => ⟨(setDateTimeAll dt d.regs).1, d.buf⟩
  | .opSetDateTimeHSeconds v => ⟨(setDateTimeHSeconds v d.regs).1, d.buf⟩
  | .opSetDateTimeSeconds v => ⟨(setDateTimeSeconds v d.regs).regs, d.buf⟩
  | .opSetDateTimeMinutes v => ⟨(setDateTimeMinutes v d.regs).regs, d.buf⟩
  | .opSetDateTimeHours v => ⟨(setDateTimeHours v d.regs).regs, d.buf⟩
  | .opSetDateTimeWday v => ⟨(setDateTimeWday v d.regs).regs, d.buf⟩
  | .opSetDateTimeDay v => ⟨(setDateTimeDay v d.regs).regs, d.buf⟩
  | .opSetDateTimeMonth v => ⟨(setDateTimeMonth v d.regs).regs, d.buf⟩
  | .opSetDateTimeYear v => ⟨(setDateTimeYear v d.regs).regs, d.buf⟩
  | .opSetDateTimeAmPm v => ⟨(setDateTimeAmPm v d.regs).regs, d.buf⟩
  | .opSetDateTimeCentury v => ⟨(setDateTimeCentury v d.regs).regs, d.buf⟩
  | .opSetTrickleChargerMode m => ⟨(setTrickleChargerMode m d.regs).regs, d.buf⟩
  | .opGetDateTimeEpoch tz => (getDateTimeEpoch tz d).2
  | .opSetDateTimeEpoch e tz => (setDateTimeEpoch e tz d).1
  | .opGetDateTimeAll => d

/-- Effect of a sequence of driver operations. -/
def runOps : List DriverOp → DevState → DevState
  | [], d => d
  | op :: ops, d => runOps ops (stepOp op d)

/-! ## Specification-side helpers for the round-trip proof -/

/-- Length in days of year `1970 + y`, as the driver's loops compute it. -/
def yearLen (y : Nat) : Nat := if LEAP_YEAR y then 366 else 365

/-- Days from 1970-01-01 to the start of year `1970 + Y`. -/
def cumDays : Nat → Nat
  | 0 => 0
  | y + 1 => cumDays y + yearLen y

/-- Days from January 1 to the start of 0-based month `m` of a year. -/
def cumMonth (leap : Bool) : Nat → Nat
  | 0 => 0
  | m + 1 => cumMonth leap m + monthLen leap m

/-- Day index (days since 1970-01-01) of the date a calendar value denotes
(year field is an offset from 2000, hence `+ 30` from 1970). -/
def dayIndexOf (cal : DS1390DateTime) : Nat :=
  cumDays (cal.Year + 30) +
    cumMonth (LEAP_YEAR (cal.Year + 30)) (cal.Month - 1) + (cal.Day - 1)

/-- A register file with every register zeroed (a freshly powered device
whose oscillator never stopped). -/
def regs0 : Regs :=
  { rHsec := 0, rSec := 0, rMin := 0, rHrs := 0, rWday := 0, rDay := 0,
    rMon := 0, rYrs := 0, rSts := 0, rTch := 0 }

/-- A register file holding day 5 (BCD 0x05) and weekday 3. -/
def regsC3 : Regs :=
  { rHsec := 0, rSec := 0, rMin := 0, rHrs := 0, rWday := 3, rDay := 5,
    rMon := 1, rYrs := 0, rSts := 0, rTch := 0 }

/-- Device state with zeroed registers and a zeroed buffer. -/
def dev0 : DevState :=
  ⟨regs0,
   { Hsecond := 0, Second := 0, Minute := 0, Hour := 0, Wday := 0, Day := 0,
     Month := 0, Year := 0, AmPm := 0, Century := 0 }⟩

/-- The calendar value 12:00:00 AM (12h format) on 2000-01-01, Saturday. -/
def calC1 : DS1390DateTime :=
  { Hsecond := 0, Second := 0, Minute := 0, Hour := 12, Wday := 7, Day := 1,
    Month := 1, Year := 0, AmPm := 0, Century := 0 }

/-- The calendar value 10:05:07 PM (12h format) on 2004-02-29, Sunday. -/
def calW : DS1390DateTime :=
  { Hsecond := 0, Second := 7, Minute := 5, Hour := 10, Wday := 1, Day := 29,
    Month := 2, Year := 4, AmPm := 1, Century := 0 }

/-- A calendar buffer whose `AmPm` field is 1. -/
def dtAmPmOne : DS1390DateTime :=
  { Hsecond := 0, Second := 0, Minute := 0, Hour := 0, Wday := 0, Day := 0,
    Month := 0, Year := 0, AmPm := 1, Century := 0 }

/-! ## Claim C7 and C6 -/

/-- Claim C7: for every value v in [0,99], `bcd2dec (dec2bcd v) = v`. -/
theorem c7_bcd_roundtrip : ∀ v : Nat, v < 100 → bcd2dec (dec2bcd v) = v := by decide

/-- Witness for C7 at v = 57. -/
theorem c7_bcd_roundtrip_witness : 57 < 100 ∧ bcd2dec (dec2bcd 57) = 57 :=
  ⟨by decide, c7_bcd_roundtrip 57 (by decide)⟩

/-- The calendar value 2000-01-01T00:00:00 (year 0, month 1, day 1,
midnight; January 1, 2000 was a Saturday, weekday 7). -/
def calY2K : DS1390DateTime :=
  { Hsecond := 0, Second := 0, Minute := 0, Hour := 0, Wday := 7, Day := 1,
    Month := 1, Year := 0, AmPm := 0, Century := 0 }

/-- Claim C6: `dateTimeToEpoch` on 2000-01-01T00:00:00, timezone 0, in 24h
format, returns exactly 946684800. -/
theorem c6_y2k_epoch : (dateTimeToEpoch DS1390_FORMAT_24H calY2K 0).1 = 946684800 := by
  decide

/-! ## Helper lemmas -/

/-- One step of the year loop (definitional unfolding). -/
theorem yearLoop_succ (n days y acc : Nat) :
    yearLoop (n + 1) days y acc =
      if acc + (if LEAP_YEAR y then 366 else 365) ≤ days then
        yearLoop n days (y + 1) (acc + (if LEAP_YEAR y then 366 else 365))
      else (y, acc + (if LEAP_YEAR y then 366 else 365)) := rfl

/-- One step of the month loop (definitional unfolding). -/
theorem monthLoop_succ (leap : Bool) (k m t : Nat) :
    monthLoop leap (k + 1) m t =
      if monthLen leap m ≤ t then monthLoop leap k (m + 1) (t - monthLen leap m)
      else (m, t) := rfl

theorem cumDays_succ (y : Nat) :
    cumDays (y + 1) = cumDays y + (if LEAP_YEAR y then 366 else 365) := rfl

theorem cumDays_mono {m n : Nat} (h : m ≤ n) : cumDays m ≤ cumDays n := by
  induction h with
  | refl => exact Nat.le_refl _
  | step _ ih => exact Nat.le_trans ih (by rw [cumDays_succ]; omega)

theorem cumMonth_succ (leap : Bool) (m : Nat) :
    cumMonth leap (m + 1) = cumMonth leap m + monthLen leap m := rfl

theorem cumMonth_mono (leap : Bool) {m n : Nat} (h : m ≤ n) :
    cumMonth leap m ≤ cumMonth leap n := by
  induction h with
  | refl => exact Nat.le_refl _
  | step _ ih => exact Nat.le_trans ih (by rw [cumMonth_succ]; omega)

/-- The year loop finds the unique year block containing the day count. -/
theorem yearLoop_eq (fuel : Nat) :
    ∀ y days Y, y ≤ Y → Y < y + fuel → cumDays Y ≤ days → days < cumDays (Y + 1) →
      yearLoop fuel days y (cumDays y) = (Y, cumDays (Y + 1)) := by
  induction fuel with
  | zero => intro y days Y h1 h2 _ _; omega
  | succ n ih =>
    intro y days Y h1 h2 h3 h4
    rw [yearLoop_succ, ← cumDays_succ]
    rcases Nat.eq_or_lt_of_le h1 with heq | hlt
    · subst heq
      rw [if_neg (by omega)]
    · rw [if_pos (Nat.le_trans (cumDays_mono hlt) h3)]
      exact ih (y + 1) days Y hlt (by omega) h3 h4

/-- The month loop finds the unique month block containing the day of year. -/
theorem monthLoop_eq (leap : Bool) (fuel : Nat) :
    ∀ m M d, m ≤ M → M < m + fuel → d < monthLen leap M →
      monthLoop leap fuel m (cumMonth leap M + d - cumMonth leap m) = (M, d) := by
  induction fuel with
  | zero => intro m M d h1 h2 _; omega
  | succ n ih =>
    intro m M d h1 h2 h3
    rw [monthLoop_succ]
    rcases Nat.eq_or_lt_of_le h1 with heq | hlt
    · subst heq
      have ht : cumMonth leap m + d - cumMonth leap m = d := by omega
      rw [ht, if_neg (by omega)]
    · have hmono : cumMonth leap (m + 1) ≤ cumMonth leap M := cumMonth_mono leap hlt
      have hsucc := cumMonth_succ leap m
      rw [if_pos (by omega)]
      have harg : cumMonth leap M + d - cumMonth leap m - monthLen leap m =
          cumMonth leap M + d - cumMonth leap (m + 1) := by omega
      rw [harg]
      exact ih (m + 1) M d hlt (by omega) h3

/-- The year/leap-second accumulation of `dateTimeToEpoch` counts exactly
86400 seconds per day elapsed before the year. -/
theorem leapSecs_cumDays (Y : Nat) :
    Y * (86400 * 365) + leapSecs Y = 86400 * cumDays Y := by
  induction Y with
  | zero => rfl
  | succ n ih =>
    have h1 : leapSecs (n + 1) = leapSecs n + (if LEAP_YEAR n then 86400 else 0) := rfl
    have h2 := cumDays_succ n
    rw [h1, h2]
    cases LEAP_YEAR n <;> simp <;> omega

set_option maxRecDepth 4000 in
/-- The month accumulation of `dateTimeToEpoch` counts exactly 86400
seconds per day elapsed in the months before `M` (1-based). -/
theorem monthSecs_cumMonth (leap : Bool) :
    ∀ M, M < 13 → 1 ≤ M → monthSecs leap M = 86400 * cumMonth leap (M - 1) := by
  cases leap <;> decide

theorem cumMonth_twelve (leap : Bool) :
    cumMonth leap 12 = if leap then 366 else 365 := by
  cases leap <;> decide

set_option maxRecDepth 4000 in
theorem cumDays_130 : cumDays 130 = 47482 := by decide

/-- A value below 128 has bit 7 clear. -/
theorem shr7_eq_zero_of_lt : ∀ y : Nat, y < 128 → (y &&& 128) >>> 7 = 0 := by decide

/-- After `setValidation` the OSF bit reads back clear, so `getValidation`
returns true. -/
theorem getValidation_setValidation (s : Regs) :
    getValidation (setValidation s) = true := by
  have h1 : s.rSts &&& 127 < 128 := Nat.lt_of_le_of_lt Nat.and_le_right (by norm_num)
  have h2 : (s.rSts &&& 127 &&& 128) >>> 7 = 0 := shr7_eq_zero_of_lt _ h1
  simp [getValidation, setValidation, DS1390_MASK_OSF, h2]

set_option maxRecDepth 4000 in
/-- In a byte whose format bit (bit 6) is clear, the source's
`(h & 0x40) >> 5` test also yields 0. -/
theorem format_shift5_of_shift6 :
    ∀ h : Nat, h < 256 → (h &&& 64) >>> 6 = 0 → (h &&& 64) >>> 5 = 0 := by decide

/-- The mutated structure returned by `dateTimeToEpoch`. -/
theorem toEpoch_snd_spec (fmt : Nat) (dt : DS1390DateTime) (tz : Int) :
    (dateTimeToEpoch fmt dt tz).2 =
      { dt with Year := (dt.Year + 30) % 256,
                Hour := if fmt = DS1390_FORMAT_12H ∧ dt.AmPm = DS1390_PM then
                          (dt.Hour + 12) % 256
                        else dt.Hour } := by
  unfold dateTimeToEpoch
  by_cases h : fmt = DS1390_FORMAT_12H ∧ dt.AmPm = DS1390_PM <;> simp [h]

/-! ## Claim C2 -/

/-- Counterexample for C2 as stated: `setDateTimeHSeconds`, called with the
value currently stored in the device (0), still performs 2 register writes
(the hundredths register and the validity-flag update); it has no
current-value check at all. -/
theorem c2_counterexample :
    getDateTimeHSeconds regs0 = 0 ∧ (setDateTimeHSeconds 0 regs0).2 = 2 := by decide

/-- Claim C2 (amended): every field setter except `setDateTimeHSeconds`,
called with the value currently stored in the device, returns Unchanged
(`false`), leaves the registers untouched and performs zero writes;
`setDateTimeHSeconds` always writes. -/
theorem c2_no_write_when_unchanged : ∀ (v : Nat) (s : Regs),
    (v = getDateTimeSeconds s → setDateTimeSeconds v s = ⟨false, s, 0⟩) ∧
    (v = getDateTimeMinutes s → setDateTimeMinutes v s = ⟨false, s, 0⟩) ∧
    (v = getDateTimeHours s → setDateTimeHours v s = ⟨false, s, 0⟩) ∧
    (v = getDateTimeWday s → setDateTimeWday v s = ⟨false, s, 0⟩) ∧
    (v = getDateTimeDay s → setDateTimeDay v s = ⟨false, s, 0⟩) ∧
    (v = getDateTimeMonth s → setDateTimeMonth v s = ⟨false, s, 0⟩) ∧
    (v = getDateTimeYear s → setDateTimeYear v s = ⟨false, s, 0⟩) ∧
    (v = getDateTimeAmPm s → setDateTimeAmPm v s = ⟨false, s, 0⟩) ∧
    (v = getTimeFormat s → setTimeFormat v s = ⟨false, s, 0⟩) ∧
    (v = getTrickleChargerMode s → setTrickleChargerMode v s = ⟨false, s, 0⟩) := by
  intro v s
  refine ⟨?_, ?_, ?_, ?_, ?_, ?_, ?_, ?_, ?_, ?_⟩ <;> intro h
  · simp [setDateTimeSeconds, h]
  · simp [setDateTimeMinutes, h]
  · simp [setDateTimeHours, h]
  · simp [setDateTimeWday, h]
  · simp [setDateTimeDay, h]
  · simp [setDateTimeMonth, h]
  · simp [setDateTimeYear, h]
  · simp [setDateTimeAmPm, h]
  · simp [setTimeFormat, getTimeFormat] at h ⊢; simp [h]
  · simp [setTrickleChargerMode, h]

/-- Witness for the amended C2: on a zeroed device, setting seconds to its
current value 0 is a no-op with zero writes. -/
theorem c2_no_write_when_unchanged_witness :
    0 = getDateTimeSeconds regs0 ∧ setDateTimeSeconds 0 regs0 = ⟨false, regs0, 0⟩ :=
  ⟨by decide, (c2_no_write_when_unchanged 0 regs0).1 (by decide)⟩

/-! ## Claim C3 -/

/-- Claim C3: the day and weekday setters of the source clamp with lower
bound 0, not the documented 1: on a device storing day 5 / weekday 3,
`setDateTimeDay(0)` and `setDateTimeWday(0)` both perform their write and
store raw 0 in the register, whereas the documented clamp to [1,31] /
[1,7] would have stored `dec2bcd 1 = 1`. -/
theorem c3_day_wday_clamp_lower_bound_zero :
    (setDateTimeDay 0 regsC3).changed = true ∧
    (setDateTimeDay 0 regsC3).regs.rDay = 0 ∧
    (setDateTimeWday 0 regsC3).changed = true ∧
    (setDateTimeWday 0 regsC3).regs.rWday = 0 ∧
    dec2bcd 1 = 1 := by decide

/-! ## Claim C4 -/

/-- Counterexample for C4 as stated: with the device in 24h format,
`epochToDateTime` does not assign the `AmPm` field at all, so a caller
buffer holding `AmPm = 1` yields an output structure with `amPm = 1`,
not 0. -/
theorem c4_counterexample :
    getTimeFormat regs0 = DS1390_FORMAT_24H ∧
    (epochToDateTime (getTimeFormat regs0) 0 dtAmPmOne 0).AmPm = 1 := by decide

/-- Claim C4 (amended): in 24h format `getDateTimeAll` always decodes
`AmPm` to 0, while `epochToDateTime` leaves the `AmPm` field of its output
structure exactly as the caller's buffer had it (so it is 0 only when the
buffer's field already was 0). -/
theorem c4_ampm_in_24h :
    (∀ s : Regs, s.rHrs < 256 → getTimeFormat s = DS1390_FORMAT_24H →
      (getDateTimeAll s).AmPm = 0) ∧
    (∀ (e : Nat) (dt : DS1390DateTime) (tz : Int),
      (epochToDateTime DS1390_FORMAT_24H e dt tz).AmPm = dt.AmPm) := by
  constructor
  · intro s hb hf
    have h6 : (s.rHrs &&& 64) >>> 6 = 0 := by
      simpa [getTimeFormat, DS1390_MASK_FORMAT, DS1390_FORMAT_24H] using hf
    have h5 := format_shift5_of_shift6 s.rHrs hb h6
    simp [getDateTimeAll, DS1390_MASK_FORMAT, DS1390_FORMAT_24H, h5]
  · intro e dt tz
    simp [epochToDateTime, epochToDateTimeCore, DS1390_FORMAT_24H, DS1390_FORMAT_12H]

/-- Witness for the amended C4 on the zeroed device and the y2k buffer. -/
theorem c4_ampm_in_24h_witness :
    regs0.rHrs < 256 ∧ getTimeFormat regs0 = DS1390_FORMAT_24H ∧
    (getDateTimeAll regs0).AmPm = 0 ∧
    (epochToDateTime DS1390_FORMAT_24H 946684800 calY2K 0).AmPm = calY2K.AmPm :=
  ⟨by decide, by decide, c4_ampm_in_24h.1 regs0 (by decide) (by decide),
   c4_ampm_in_24h.2 946684800 calY2K 0⟩

/-! ## Claim C5 -/

/-- Claim C5: every setter call that performs a register write ends with
`setValidation`, so the validity flag reads back true afterwards: each
`bool` setter that returns Changed, plus the unconditional writers
`setDateTimeHSeconds`, `setDateTimeAll` and `setDateTimeEpoch`. -/
theorem c5_write_reasserts_validity : ∀ (v : Nat) (s : Regs),
    ((setDateTimeSeconds v s).changed = true →
      getValidation (setDateTimeSeconds v s).regs = true) ∧
    ((setDateTimeMinutes v s).changed = true →
      getValidation (setDateTimeMinutes v s).regs = true) ∧
    ((setDateTimeHours v s).changed = true →
      getValidation (setDateTimeHours v s).regs = true) ∧
    ((setDateTimeWday v s).changed = true →
      getValidation (setDateTimeWday v s).regs = true) ∧
    ((setDateTimeDay v s).changed = true →
      getValidation (setDateTimeDay v s).regs = true) ∧
    ((setDateTimeMonth v s).changed = true →
      getValidation (setDateTimeMonth v s).regs = true) ∧
    ((setDateTimeYear v s).changed = true →
      getValidation (setDateTimeYear v s).regs = true) ∧
    ((setDateTimeAmPm v s).changed = true →
      getValidation (setDateTimeAmPm v s).regs = true) ∧
    ((setDateTimeCentury v s).changed = true →
      getValidation (setDateTimeCentury v s).regs = true) ∧
    ((setTimeFormat v s).changed = true →
      getValidation (setTimeFormat v s).regs = true) ∧
    ((setTrickleChargerMode v s).changed = true →
      getValidation (setTrickleChargerMode v s).regs = true) ∧
    (getValidation (setDateTimeHSeconds v s).1 = true) ∧
    (∀ dt : DS1390DateTime, getValidation (setDateTimeAll dt s).1 = true) ∧
    (∀ (e : Nat) (tz : Int) (d : DevState),
      getValidation (setDateTimeEpoch e tz d).1.regs = true) := by
  intro v s
  refine ⟨?_, ?_, ?_, ?_, ?_, ?_, ?_, ?_, ?_, ?_, ?_, ?_, ?_, ?_⟩
  · unfold setDateTimeSeconds
    split_ifs <;> simp_all [getValidation_setValidation]
  · unfold setDateTimeMinutes
    split_ifs <;> simp_all [getValidation_setValidation]
  · unfold setDateTimeHours
    split_ifs <;> simp_all [getValidation_setValidation]
  · unfold setDateTimeWday
    split_ifs <;> simp_all [getValidation_setValidation]
  · unfold setDateTimeDay
    split_ifs <;> simp_all [getValidation_setValidation]
  · unfold setDateTimeMonth
    split_ifs <;> simp_all [getValidation_setValidation]
  · unfold setDateTimeYear
    split_ifs <;> simp_all [getValidation_setValidation]
  · unfold setDateTimeAmPm
    split_ifs <;> simp_all [getValidation_setValidation]
  · unfold setDateTimeCentury
    split_ifs <;> simp_all [getValidation_setValidation]
  · unfold setTimeFormat
    by_cases hA : v = (s.rHrs &&& DS1390_MASK_FORMAT) >>> 6
    · simp [hA]
    · by_cases hB : v ≠ DS1390_FORMAT_24H ∧ v ≠ DS1390_FORMAT_12H
      · simp [hA, hB]
      · simp [hA, hB, getValidation_setValidation]
  · unfold setTrickleChargerMode
    split_ifs <;> simp_all [getValidation_setValidation]
  · exact getValidation_setValidation _
  · intro dt; exact getValidation_setValidation _
  · intro e tz d; exact getValidation_setValidation _

/-- Witness for C5: a changed seconds write and an unconditional
hundredths write on the zeroed device both leave the flag valid. -/
theorem c5_write_reasserts_validity_witness :
    (setDateTimeSeconds 5 regs0).changed = true ∧
    getValidation (setDateTimeSeconds 5 regs0).regs = true ∧
    getValidation (setDateTimeHSeconds 5 regs0).1 = true :=
  ⟨by decide, (c5_write_reasserts_validity 5 regs0).1 (by decide),
   (c5_write_reasserts_validity 5 regs0).2.2.2.2.2.2.2.2.2.2.2.1⟩

/-! ## Claim C8 -/

/-- Claim C8: `setTrickleChargerMode` on any byte outside the documented
mode set (this revision's `DS1390_TCH_250_D` is 0x29) returns Rejected
(`false`), performs no write and leaves the registers untouched.  (When
the byte happens to equal the currently stored register value the
current-value check fires first, with the same observable outcome.) -/
theorem c8_invalid_trickle_mode_rejected (Mode : Nat) (s : Regs)
    (h0 : Mode ≠ DS1390_TCH_DISABLE) (h1 : Mode ≠ DS1390_TCH_250_NO_D)
    (h2 : Mode ≠ DS1390_TCH_250_D) (h3 : Mode ≠ DS1390_TCH_2K_NO_D)
    (h4 : Mode ≠ DS1390_TCH_2K_D) (h5 : Mode ≠ DS1390_TCH_4K_NO_D)
    (h6 : Mode ≠ DS1390_TCH_4K_D) :
    setTrickleChargerMode Mode s = ⟨false, s, 0⟩ := by
  unfold setTrickleChargerMode
  split_ifs with ha hb
  · rfl
  · rfl
  · exact absurd ⟨h0, h1, h2, h3, h4, h5, h6⟩ hb

/-- Witness for C8 at the out-of-set byte 0x11. -/
theorem c8_invalid_trickle_mode_rejected_witness :
    (17 : Nat) ≠ DS1390_TCH_DISABLE ∧ setTrickleChargerMode 17 regs0 = ⟨false, regs0, 0⟩ :=
  ⟨by decide,
   c8_invalid_trickle_mode_rejected 17 regs0 (by decide) (by decide) (by decide)
     (by decide) (by decide) (by decide) (by decide)⟩

/-! ## Claim C9 -/

/-- Claim C9: `dateTimeToEpoch` mutates its by-reference argument: the
Year field always becomes `(Year + 30) % 256` (hence never equals the
original), the Hour field becomes `(Hour + 12) % 256` exactly when the
format is 12h and `AmPm = PM`, and every other field is unchanged. -/
theorem c9_toEpoch_mutates_argument (fmt : Nat) (dt : DS1390DateTime) (tz : Int) :
    (dateTimeToEpoch fmt dt tz).2.Year = (dt.Year + 30) % 256 ∧
    (dateTimeToEpoch fmt dt tz).2.Year ≠ dt.Year ∧
    (dateTimeToEpoch fmt dt tz).2.Hour =
      (if fmt = DS1390_FORMAT_12H ∧ dt.AmPm = DS1390_PM then (dt.Hour + 12) % 256
       else dt.Hour) ∧
    (dateTimeToEpoch fmt dt tz).2.Hsecond = dt.Hsecond ∧
    (dateTimeToEpoch fmt dt tz).2.Second = dt.Second ∧
    (dateTimeToEpoch fmt dt tz).2.Minute = dt.Minute ∧
    (dateTimeToEpoch fmt dt tz).2.Wday = dt.Wday ∧
    (dateTimeToEpoch fmt dt tz).2.Day = dt.Day ∧
    (dateTimeToEpoch fmt dt tz).2.Month = dt.Month ∧
    (dateTimeToEpoch fmt dt tz).2.AmPm = dt.AmPm ∧
    (dateTimeToEpoch fmt dt tz).2.Century = dt.Century := by
  rw [toEpoch_snd_spec]
  refine ⟨rfl, by simp; omega, ?_, rfl, rfl, rfl, rfl, rfl, rfl, rfl, rfl⟩
  by_cases h : fmt = DS1390_FORMAT_12H ∧ dt.AmPm = DS1390_PM <;> simp [h]

/-! ## Claim C10 -/

/-- One driver operation never sets the OSF bit: if the validity flag
reads true before the operation, it still reads true after. -/
theorem stepOp_preserves_validation (op : DriverOp) (d : DevState)
    (h : getValidation d.regs = true) : getValidation (stepOp op d).regs = true := by
  cases op with
  | opSetTimeFormat f =>
    simp only [stepOp]
    unfold setTimeFormat
    by_cases hA : f = (d.regs.rHrs &&& DS1390_MASK_FORMAT) >>> 6
    · simpa [hA] using h
    · by_cases hB : f ≠ DS1390_FORMAT_24H ∧ f ≠ DS1390_FORMAT_12H
      · simpa [hA, hB] using h
      · simp [hA, hB, getValidation_setValidation]
  | opSetValidation =>
    simp only [stepOp]
    exact getValidation_setValidation _
  | opSetDateTimeAll dt =>
    simp only [stepOp]
    exact getValidation_setValidation _
  | opSetDateTimeHSeconds v =>
    simp only [stepOp]
    exact getValidation_setValidation _
  | opSetDateTimeSeconds v =>
    simp only [stepOp]
    unfold setDateTimeSeconds
    split_ifs <;> first | exact h | exact getValidation_setValidation _
  | opSetDateTimeMinutes v =>
    simp only [stepOp]
    unfold setDateTimeMinutes
    split_ifs <;> first | exact h | exact getValidation_setValidation _
  | opSetDateTimeHours v =>
    simp only [stepOp]
    unfold setDateTimeHours
    split_ifs <;> first | exact h | exact getValidation_setValidation _
  | opSetDateTimeWday v =>
    simp only [stepOp]
    unfold setDateTimeWday
    split_ifs <;> first | exact h | exact getValidation_setValidation _
  | opSetDateTimeDay v =>
    simp only [stepOp]
    unfold setDateTimeDay
    split_ifs <;> first | exact h | exact getValidation_setValidation _
  | opSetDateTimeMonth v =>
    simp only [stepOp]
    unfold setDateTimeMonth
    split_ifs <;> first | exact h | exact getValidation_setValidation _
  | opSetDateTimeYear v =>
    simp only [stepOp]
    unfold setDateTimeYear
    split_ifs <;> first | exact h | exact getValidation_setValidation _
  | opSetDateTimeAmPm v =>
    simp only [stepOp]
    unfold setDateTimeAmPm
    split_ifs <;> first | exact h | exact getValidation_setValidation _
  | opSetDateTimeCentury v =>
    simp only [stepOp]
    unfold setDateTimeCentury
    split_ifs <;> first | exact h | exact getValidation_setValidation _
  | opSetTrickleChargerMode m =>
    simp only [stepOp]
    unfold setTrickleChargerMode
    split_ifs <;> first | exact h | exact getValidation_setValidation _
  | opGetDateTimeEpoch tz =>
    simp only [stepOp, getDateTimeEpoch]
    exact h
  | opSetDateTimeEpoch e tz =>
    simp only [stepOp, setDateTimeEpoch, setDateTimeAll]
    exact getValidation_setValidation _
  | opGetDateTimeAll =>
    simp only [stepOp]
    exact h

/-- Claim C10: the driver can only clear the OSF bit (`setValidation` has
no value argument), so along any sequence of driver operations, once
`getValidation` returns true it returns true ever after. -/
theorem c10_validation_never_cleared (ops : List DriverOp) (d : DevState)
    (h : getValidation d.regs = true) :
    getValidation (runOps ops d).regs = true := by
  induction ops generalizing d with
  | nil => exact h
  | cons op rest ih => exact ih (stepOp op d) (stepOp_preserves_validation op d h)

/-- Witness for C10 on a concrete operation sequence from the zeroed
device. -/
theorem c10_validation_never_cleared_witness :
    getValidation dev0.regs = true ∧
    getValidation (runOps
      [DriverOp.opSetDateTimeSeconds 7, DriverOp.opSetTimeFormat 1,
       DriverOp.opSetDateTimeEpoch 0 0, DriverOp.opGetDateTimeEpoch 3,
       DriverOp.opSetTrickleChargerMode 0x29] dev0).regs = true :=
  ⟨by decide, c10_validation_never_cleared _ dev0 (by decide)⟩

/-! ## Claim C1: helper lemmas and the round-trip theorem -/

/-- Closed form of the epoch returned by `dateTimeToEpoch` (for a valid
day and a two-digit year the `uint8` wrap of `Year + 30` is the identity). -/
theorem toEpoch_fst_spec (fmt : Nat) (cal : DS1390DateTime) (tz : Int)
    (hday : 1 ≤ cal.Day) (hyear : cal.Year ≤ 99) :
    (dateTimeToEpoch fmt cal tz).1 =
      (((if tz ≠ 0 then constrainInt tz (-12) 12 * (-3600) else 0) +
        (((cal.Year + 30) * (86400 * 365) + leapSecs (cal.Year + 30) +
          monthSecs (LEAP_YEAR (cal.Year + 30)) cal.Month +
          (cal.Day - 1) * 86400 +
          (if fmt = DS1390_FORMAT_12H ∧ cal.AmPm = DS1390_PM then (cal.Hour + 12) % 256
           else cal.Hour) * 3600 + cal.Minute * 60 + cal.Second : Nat) : Int)) %
        (2 ^ 32 : Int)).toNat := by
  have hY : (cal.Year + 30) % 256 = cal.Year + 30 := Nat.mod_eq_of_lt (by omega)
  unfold dateTimeToEpoch
  by_cases h : fmt = DS1390_FORMAT_12H ∧ cal.AmPm = DS1390_PM <;>
    simp only [h, if_pos, if_neg, ite_true, ite_false, not_false_iff] <;>
    simp [hY] <;>
    ring_nf <;>
    congr 1 <;>
    omega
/-- Full characterization of the decode body on an epoch split into a day
index and a time of day: the second/minute/hour extraction, the weekday
formula, and the year and month loops recover the constituents. -/
theorem epochToDateTimeCore_spec (fmt : Nat) (dt : DS1390DateTime)
    (dIdx hr mi se Y M0 d0 : Nat)
    (hhr : hr ≤ 23) (hmi : mi ≤ 59) (hse : se ≤ 59)
    (hYlo : cumDays Y ≤ dIdx) (hYhi : dIdx < cumDays (Y + 1)) (hYfuel : Y < 200)
    (hM0 : M0 < 12) (hd0 : d0 < monthLen (LEAP_YEAR Y) M0)
    (hsplit : dIdx = cumDays Y + cumMonth (LEAP_YEAR Y) M0 + d0) :
    epochToDateTimeCore fmt (dIdx * 86400 + hr * 3600 + mi * 60 + se) dt =
      { dt with
        Second := se
        Minute := mi
        Hour := if fmt = DS1390_FORMAT_12H then
                  (if hr = 0 then 12 else if hr = 12 then 12
                   else if hr < 12 then hr else hr - 12)
                else hr
        AmPm := if fmt = DS1390_FORMAT_12H then
                  (if hr = 0 then DS1390_AM else if hr = 12 then DS1390_PM
                   else if hr < 12 then DS1390_AM else DS1390_PM)
                else dt.AmPm
        Wday := (dIdx + 4) % 7 + 1
        Year := (Y + 226) % 256
        Month := M0 + 1
        Day := d0 + 1 } := by
  have h1 : (dIdx * 86400 + hr * 3600 + mi * 60 + se) % 60 = se := by omega
  have h2 : (dIdx * 86400 + hr * 3600 + mi * 60 + se) / 60 % 60 = mi := by omega
  have h3 : (dIdx * 86400 + hr * 3600 + mi * 60 + se) / 60 / 60 % 24 = hr := by omega
  have h4 : (dIdx * 86400 + hr * 3600 + mi * 60 + se) / 60 / 60 / 24 = dIdx := by omega
  have h5 : yearLoop 200 dIdx 0 0 = (Y, cumDays (Y + 1)) :=
    yearLoop_eq 200 0 dIdx Y (Nat.zero_le _) (by omega) hYlo hYhi
  have hcd := cumDays_succ Y
  have h6 : monthLoop (LEAP_YEAR Y) 12 0 (cumMonth (LEAP_YEAR Y) M0 + d0) = (M0, d0) := by
    have h := monthLoop_eq (LEAP_YEAR Y) 12 0 M0 d0 (Nat.zero_le _) (by omega) hd0
    simpa using h
  have harg : dIdx - (cumDays (Y + 1) - (if LEAP_YEAR Y then 366 else 365)) =
      cumMonth (LEAP_YEAR Y) M0 + d0 := by omega
  simp only [epochToDateTimeCore, h1, h2, h3, h4, h5]
  rw [harg, h6]
  split_ifs <;> rfl

/-- The timezone shift applied by `dateTimeToEpoch` (subtract `3600 * tz`,
wrapped to 32 bits) is undone by the one applied by `epochToDateTime`
(add `3600 * tz`, wrapped) for `tz` in [-12,12]. -/
theorem localize_cancel (E S : Nat) (tz : Int)
    (hE : E = (((if tz ≠ 0 then constrainInt tz (-12) 12 * (-3600) else 0) + (S : Int)) %
        (2 ^ 32 : Int)).toNat)
    (hS : S < 2 ^ 32) (htz1 : -12 ≤ tz) (htz2 : tz ≤ 12) :
    (if tz ≠ 0 then (((E : Int) + tz * 3600) % (2 ^ 32 : Int)).toNat else E) = S := by
  have hc : constrainInt tz (-12) 12 = tz := by unfold constrainInt; split_ifs <;> omega
  by_cases h0 : tz = 0
  · rw [if_neg (by simp [h0])]
    rw [if_neg (by simp [h0])] at hE
    omega
  · rw [if_pos h0] at hE ⊢
    rw [hc] at hE
    omega

/-- Decoding the epoch produced for a valid calendar value and an
effective 24h hour `hr` yields the original date fields together with the
raw remapped hour. -/
theorem roundtrip_step (fmt : Nat) (cal buf : DS1390DateTime) (tz : Int) (hr E : Nat)
    (hE : E = (((if tz ≠ 0 then constrainInt tz (-12) 12 * (-3600) else 0) +
         (((cal.Year + 30) * (86400 * 365) + leapSecs (cal.Year + 30) +
           monthSecs (LEAP_YEAR (cal.Year + 30)) cal.Month +
           (cal.Day - 1) * 86400 + hr * 3600 + cal.Minute * 60 + cal.Second : Nat) : Int)) %
         (2 ^ 32 : Int)).toNat)
    (hhr : hr ≤ 23) (hse : cal.Second ≤ 59) (hmi : cal.Minute ≤ 59)
    (hd1 : 1 ≤ cal.Day)
    (hdlen : cal.Day ≤ monthLen (LEAP_YEAR (cal.Year + 30)) (cal.Month - 1))
    (hm1 : 1 ≤ cal.Month) (hm2 : cal.Month ≤ 12) (hyr : cal.Year ≤ 99)
    (htz1 : -12 ≤ tz) (htz2 : tz ≤ 12) :
    epochToDateTime fmt E buf tz =
      { buf with
        Second := cal.Second
        Minute := cal.Minute
        Hour := if fmt = DS1390_FORMAT_12H then
                  (if hr = 0 then 12 else if hr = 12 then 12
                   else if hr < 12 then hr else hr - 12)
                else hr
        AmPm := if fmt = DS1390_FORMAT_12H then
                  (if hr = 0 then DS1390_AM else if hr = 12 then DS1390_PM
                   else if hr < 12 then DS1390_AM else DS1390_PM)
                else buf.AmPm
        Wday := (dayIndexOf cal + 4) % 7 + 1
        Year := (cal.Year + 30 + 226) % 256
        Month := cal.Month
        Day := cal.Day } := by
  have hcm : cumMonth (LEAP_YEAR (cal.Year + 30)) cal.Month =
      cumMonth (LEAP_YEAR (cal.Year + 30)) (cal.Month - 1) +
        monthLen (LEAP_YEAR (cal.Year + 30)) (cal.Month - 1) := by
    rw [← cumMonth_succ]
    congr 1
    omega
  have hcm12 : cumMonth (LEAP_YEAR (cal.Year + 30)) cal.Month ≤
      cumMonth (LEAP_YEAR (cal.Year + 30)) 12 := cumMonth_mono _ hm2
  have h12 := cumMonth_twelve (LEAP_YEAR (cal.Year + 30))
  have hcd := cumDays_succ (cal.Year + 30)
  have hYlo : cumDays (cal.Year + 30) ≤ dayIndexOf cal := by
    unfold dayIndexOf; omega
  have hYhi : dayIndexOf cal < cumDays (cal.Year + 30 + 1) := by
    unfold dayIndexOf; omega
  have hbig : cumDays (cal.Year + 30 + 1) ≤ cumDays 130 := cumDays_mono (by omega)
  have hS : dayIndexOf cal * 86400 + hr * 3600 + cal.Minute * 60 + cal.Second < 2 ^ 32 := by
    have := cumDays_130
    omega
  have hls := leapSecs_cumDays (cal.Year + 30)
  have hms := monthSecs_cumMonth (LEAP_YEAR (cal.Year + 30)) cal.Month (by omega) hm1
  have hsum : (cal.Year + 30) * (86400 * 365) + leapSecs (cal.Year + 30) +
      monthSecs (LEAP_YEAR (cal.Year + 30)) cal.Month +
      (cal.Day - 1) * 86400 + hr * 3600 + cal.Minute * 60 + cal.Second =
      dayIndexOf cal * 86400 + hr * 3600 + cal.Minute * 60 + cal.Second := by
    unfold dayIndexOf; omega
  rw [hsum] at hE
  have hloc := localize_cancel E
    (dayIndexOf cal * 86400 + hr * 3600 + cal.Minute * 60 + cal.Second) tz hE hS htz1 htz2
  unfold epochToDateTime
  rw [hloc]
  rw [epochToDateTimeCore_spec fmt buf (dayIndexOf cal) hr cal.Minute cal.Second
    (cal.Year + 30) (cal.Month - 1) (cal.Day - 1) hhr hmi hse hYlo hYhi (by omega)
    (by omega) (by omega) rfl]
  have hM : cal.Month - 1 + 1 = cal.Month := by omega
  have hD : cal.Day - 1 + 1 = cal.Day := by omega
  rw [hM, hD]

/-- Claim C1 (amended): for every calendar value whose fields are in their
documented ranges and which denotes a real date (the day does not exceed
the length of the month in that year, and the weekday field equals the
true weekday of the date), with hour in [0,23] in 24h format, or hour in
[1,11] in 12h format (hour 12, i.e. 12AM/12PM, does not round-trip), and
every timezone in [-12,12], converting with `dateTimeToEpoch` and back
with `epochToDateTime` under the same device format reproduces the hour,
minute, second, day, month, year, weekday and amPm fields exactly. -/
theorem c1_roundtrip (cal : DS1390DateTime) (fmt : Nat) (tz : Int)
    (hfmt : fmt = DS1390_FORMAT_24H ∨ fmt = DS1390_FORMAT_12H)
    (hse2 : cal.Second ≤ 59) (hmi2 : cal.Minute ≤ 59)
    (hd1 : 1 ≤ cal.Day)
    (hdlen : cal.Day ≤ monthLen (LEAP_YEAR (cal.Year + 30)) (cal.Month - 1))
    (hm1 : 1 ≤ cal.Month) (hm2 : cal.Month ≤ 12)
    (hyr : cal.Year ≤ 99)
    (hwd : cal.Wday = (dayIndexOf cal + 4) % 7 + 1)
    (hh24 : fmt = DS1390_FORMAT_24H → cal.Hour ≤ 23)
    (hh12 : fmt = DS1390_FORMAT_12H → 1 ≤ cal.Hour ∧ cal.Hour ≤ 11 ∧ cal.AmPm ≤ 1)
    (htz1 : -12 ≤ tz) (htz2 : tz ≤ 12) :
    (epochToDateTime fmt (dateTimeToEpoch fmt cal tz).1
        (dateTimeToEpoch fmt cal tz).2 tz).Hour = cal.Hour ∧
    (epochToDateTime fmt (dateTimeToEpoch fmt cal tz).1
        (dateTimeToEpoch fmt cal tz).2 tz).Minute = cal.Minute ∧
    (epochToDateTime fmt (dateTimeToEpoch fmt cal tz).1
        (dateTimeToEpoch fmt cal tz).2 tz).Second = cal.Second ∧
    (epochToDateTime fmt (dateTimeToEpoch fmt cal tz).1
        (dateTimeToEpoch fmt cal tz).2 tz).Day = cal.Day ∧
    (epochToDateTime fmt (dateTimeToEpoch fmt cal tz).1
        (dateTimeToEpoch fmt cal tz).2 tz).Month = cal.Month ∧
    (epochToDateTime fmt (dateTimeToEpoch fmt cal tz).1
        (dateTimeToEpoch fmt cal tz).2 tz).Year = cal.Year ∧
    (epochToDateTime fmt (dateTimeToEpoch fmt cal tz).1
        (dateTimeToEpoch fmt cal tz).2 tz).Wday = cal.Wday ∧
    (epochToDateTime fmt (dateTimeToEpoch fmt cal tz).1
        (dateTimeToEpoch fmt cal tz).2 tz).AmPm = cal.AmPm := by
  have hsnd := toEpoch_snd_spec fmt cal tz
  have hfst := toEpoch_fst_spec fmt cal tz hd1 hyr
  rcases hfmt with h24 | h12x
  · subst h24
    have hcond : (if DS1390_FORMAT_24H = DS1390_FORMAT_12H ∧ cal.AmPm = DS1390_PM then
        (cal.Hour + 12) % 256 else cal.Hour) = cal.Hour :=
      if_neg (by simp [DS1390_FORMAT_24H, DS1390_FORMAT_12H])
    rw [hcond] at hfst
    rw [roundtrip_step DS1390_FORMAT_24H cal ((dateTimeToEpoch DS1390_FORMAT_24H cal tz).2)
      tz cal.Hour _ hfst (hh24 rfl) hse2 hmi2 hd1 hdlen hm1 hm2 hyr htz1 htz2]
    rw [hsnd]
    refine ⟨?_, rfl, rfl, rfl, rfl, ?_, ?_, ?_⟩
    · simp [DS1390_FORMAT_24H, DS1390_FORMAT_12H]
    · show (cal.Year + 30 + 226) % 256 = cal.Year
      omega
    · show (dayIndexOf cal + 4) % 7 + 1 = cal.Wday
      omega
    · simp [DS1390_FORMAT_24H, DS1390_FORMAT_12H]
  · subst h12x
    obtain ⟨hhlo, hhhi, hampm⟩ := hh12 rfl
    by_cases hpm : cal.AmPm = DS1390_PM
    · have hcond : (if DS1390_FORMAT_12H = DS1390_FORMAT_12H ∧ cal.AmPm = DS1390_PM then
          (cal.Hour + 12) % 256 else cal.Hour) = cal.Hour + 12 := by
        rw [if_pos ⟨rfl, hpm⟩]
        exact Nat.mod_eq_of_lt (by omega)
      rw [hcond] at hfst
      rw [roundtrip_step DS1390_FORMAT_12H cal ((dateTimeToEpoch DS1390_FORMAT_12H cal tz).2)
        tz (cal.Hour + 12) _ hfst (by omega) hse2 hmi2 hd1 hdlen hm1 hm2 hyr htz1 htz2]
      refine ⟨?_, rfl, rfl, rfl, rfl, ?_, ?_, ?_⟩
      · show (if DS1390_FORMAT_12H = DS1390_FORMAT_12H then
            (if cal.Hour + 12 = 0 then 12 else if cal.Hour + 12 = 12 then 12
             else if cal.Hour + 12 < 12 then cal.Hour + 12 else cal.Hour + 12 - 12)
          else cal.Hour + 12) = cal.Hour
        rw [if_pos rfl, if_neg (by omega), if_neg (by omega), if_neg (by omega)]
        omega
      · show (cal.Year + 30 + 226) % 256 = cal.Year
        omega
      · show (dayIndexOf cal + 4) % 7 + 1 = cal.Wday
        omega
      · show (if DS1390_FORMAT_12H = DS1390_FORMAT_12H then
            (if cal.Hour + 12 = 0 then DS1390_AM else if cal.Hour + 12 = 12 then DS1390_PM
             else if cal.Hour + 12 < 12 then DS1390_AM else DS1390_PM)
          else (dateTimeToEpoch DS1390_FORMAT_12H cal tz).2.AmPm) = cal.AmPm
        rw [if_pos rfl, if_neg (by omega), if_neg (by omega), if_neg (by omega)]
        exact hpm.symm
    · have hcond : (if DS1390_FORMAT_12H = DS1390_FORMAT_12H ∧ cal.AmPm = DS1390_PM then
          (cal.Hour + 12) % 256 else cal.Hour) = cal.Hour := if_neg (by simp [hpm])
      rw [hcond] at hfst
      rw [roundtrip_step DS1390_FORMAT_12H cal ((dateTimeToEpoch DS1390_FORMAT_12H cal tz).2)
        tz cal.Hour _ hfst (by omega) hse2 hmi2 hd1 hdlen hm1 hm2 hyr htz1 htz2]
      refine ⟨?_, rfl, rfl, rfl, rfl, ?_, ?_, ?_⟩
      · show (if DS1390_FORMAT_12H = DS1390_FORMAT_12H then
            (if cal.Hour = 0 then 12 else if cal.Hour = 12 then 12
             else if cal.Hour < 12 then cal.Hour else cal.Hour - 12)
          else cal.Hour) = cal.Hour
        rw [if_pos rfl, if_neg (by omega), if_neg (by omega), if_pos (by omega)]
      · show (cal.Year + 30 + 226) % 256 = cal.Year
        omega
      · show (dayIndexOf cal + 4) % 7 + 1 = cal.Wday
        omega
      · show (if DS1390_FORMAT_12H = DS1390_FORMAT_12H then
            (if cal.Hour = 0 then DS1390_AM else if cal.Hour = 12 then DS1390_PM
             else if cal.Hour < 12 then DS1390_AM else DS1390_PM)
          else (dateTimeToEpoch DS1390_FORMAT_12H cal tz).2.AmPm) = cal.AmPm
        rw [if_pos rfl, if_neg (by omega), if_neg (by omega), if_pos (by omega)]
        simp [DS1390_AM, DS1390_PM] at hpm ⊢
        omega

/-- Counterexample for C1 as stated: in 12h format the calendar value
12:00:00 AM on 2000-01-01 (all fields in their documented ranges, weekday
7 = Saturday correct) comes back from the round trip with amPm = PM:
`dateTimeToEpoch` turns 12 AM into hour 12 (noon) instead of hour 0. -/
theorem c1_counterexample :
    calC1.AmPm = DS1390_AM ∧
    (epochToDateTime DS1390_FORMAT_12H (dateTimeToEpoch DS1390_FORMAT_12H calC1 0).1
        (dateTimeToEpoch DS1390_FORMAT_12H calC1 0).2 0).AmPm = DS1390_PM := by decide


/-- Witness for C1 on the leap-day value `calW` with timezone -5. -/
theorem c1_roundtrip_witness :
    1 ≤ calW.Day ∧
    (epochToDateTime DS1390_FORMAT_12H (dateTimeToEpoch DS1390_FORMAT_12H calW (-5)).1
        (dateTimeToEpoch DS1390_FORMAT_12H calW (-5)).2 (-5)).Hour = calW.Hour :=
  ⟨by decide,
   (c1_roundtrip calW DS1390_FORMAT_12H (-5) (Or.inr rfl) (by decide) (by decide)
     (by decide) (by decide) (by decide) (by decide) (by decide) (by decide)
     (by decide) (by decide) (by decide) (by decide)).1⟩
